import Mathlib

/-!
Verification development for the kream-crawler repository (src/crawler.py).

The Python source is shallowly embedded: pure helpers become Lean functions,
the stateful selenium driver becomes an explicit `Browser` record of the
observations the code makes of external browser state, exceptions become
`Except`, and side effects (navigations, clicks, form fills) become an
explicit action trace.
-/

namespace Kream

/-! ## URL normalization (`KreamCrawler._normalize_url`) -/

/-- The characters of a string up to (excluding) the first question mark:
Python `url.split("?", 1)[0]`. -/
def takeUntilQuery : List Char → List Char
  | [] => []
  | c :: cs => if c = '?' then [] else c :: takeUntilQuery cs

/-- Drop all trailing slash characters: Python `s.rstrip("/")`. -/
def rstripSlashL (l : List Char) : List Char :=
  (l.reverse.dropWhile (fun c => c == '/')).reverse

/-- The core of the normalization on character lists: truncate at the first
question mark, then strip trailing slashes. -/
def normCore (l : List Char) : List Char :=
  rstripSlashL (takeUntilQuery l)

/-- `KreamCrawler._normalize_url(url: Optional[str]) -> str`.
Python `if not url: return ""` is falsy for both `None` and the empty
string; otherwise `url.split("?", 1)[0].rstrip("/")`. -/
def normalize_url (url : Option String) : String :=
  match url with
  | none => ""
  | some u => if u = "" then "" else String.mk (normCore u.data)

/-! ## `KreamCrawler._navigate_if_needed` -/

/-- Substring containment on character lists, Python `needle in hay`. -/
def containsL (needle : List Char) : List Char → Bool
  | [] => needle.isEmpty
  | c :: t => needle.isPrefixOf (c :: t) || containsL needle t

/-- Python `sub in s` for strings. -/
def containsStr (s sub : String) : Bool :=
  containsL sub.data s.data

/-- `KreamCrawler._navigate_if_needed(target_url)`: returns `true` iff the
method issues a navigation (`driver.get`).  Mirrors the source: `if not
target_url: return`; then `desired = _normalize_url(target_url)`,
`current = _normalize_url(driver.current_url)`; `if desired and desired ==
current: return`; otherwise `driver.get(target_url)` (followed by a wait
whose timeout is caught and only logged, hence without further effect). -/
def navigate_if_needed (current : String) (target : Option String) : Bool :=
  match target with
  | none => false
  | some t =>
    if t = "" then false
    else if normalize_url (some t) ≠ "" ∧
        normalize_url (some t) = normalize_url (some current) then false
    else true

/-! ## Helper lemmas for normalization -/

theorem mem_takeUntilQuery_ne {c : Char} {l : List Char}
    (h : c ∈ takeUntilQuery l) : c ≠ '?' := by
  induction l with
  | nil => simp [takeUntilQuery] at h
  | cons a t ih =>
    by_cases ha : a = '?'
    · simp [takeUntilQuery, ha] at h
    · simp [takeUntilQuery, ha] at h
      rcases h with h | h
      · subst h; exact ha
      · exact ih h

theorem takeUntilQuery_eq_self {l : List Char}
    (h : ∀ c ∈ l, c ≠ '?') : takeUntilQuery l = l := by
  induction l with
  | nil => rfl
  | cons a t ih =>
    have ha : a ≠ '?' := h a (by simp)
    simp [takeUntilQuery, ha]
    exact ih (fun c hc => h c (by simp [hc]))

theorem mem_dropWhile_subset {p : Char → Bool} {c : Char} {l : List Char}
    (h : c ∈ l.dropWhile p) : c ∈ l := by
  induction l with
  | nil => simp [List.dropWhile] at h
  | cons a t ih =>
    by_cases hp : p a
    · simp [List.dropWhile, hp] at h
      exact List.mem_cons_of_mem a (ih h)
    · simp [List.dropWhile, hp] at h
      rcases h with h | h
      · simp [h]
      · simp [h]

theorem dropWhile_idem (p : Char → Bool) (l : List Char) :
    (l.dropWhile p).dropWhile p = l.dropWhile p := by
  induction l with
  | nil => rfl
  | cons a t ih =>
    by_cases hp : p a
    · have h1 : (a :: t).dropWhile p = t.dropWhile p := by
        simp [List.dropWhile, hp]
      rw [h1]; exact ih
    · have h1 : (a :: t).dropWhile p = a :: t := by
        simp [List.dropWhile, hp]
      rw [h1]; exact h1

theorem mem_rstripSlashL_subset {c : Char} {l : List Char}
    (h : c ∈ rstripSlashL l) : c ∈ l := by
  unfold rstripSlashL at h
  rw [List.mem_reverse] at h
  have := mem_dropWhile_subset h
  rwa [List.mem_reverse] at this

theorem rstripSlashL_idem (l : List Char) :
    rstripSlashL (rstripSlashL l) = rstripSlashL l := by
  unfold rstripSlashL
  rw [List.reverse_reverse, dropWhile_idem]

theorem normCore_idem (l : List Char) : normCore (normCore l) = normCore l := by
  unfold normCore
  have hq : ∀ c ∈ rstripSlashL (takeUntilQuery l), c ≠ '?' := by
    intro c hc
    exact mem_takeUntilQuery_ne (mem_rstripSlashL_subset hc)
  rw [takeUntilQuery_eq_self hq, rstripSlashL_idem]

theorem normCore_nil : normCore [] = [] := rfl

theorem data_mk (l : List Char) : (String.mk l).data = l := rfl

theorem normalize_url_some (u : String) :
    normalize_url (some u) = if u = "" then "" else String.mk (normCore u.data) := rfl

/-- Truncation at the first question mark: on input `a ++ "?" ++ b` where `a`
contains no question mark, everything from the question mark on is dropped. -/
theorem takeUntilQuery_append_query (a b : List Char) (h : ∀ c ∈ a, c ≠ '?') :
    takeUntilQuery (a ++ '?' :: b) = a := by
  induction a with
  | nil => simp [takeUntilQuery]
  | cons x t ih =>
    have hx : x ≠ '?' := h x (by simp)
    simp [takeUntilQuery, hx]
    exact ih (fun c hc => h c (by simp [hc]))

/-! ## Claim theorems for normalization and navigation -/

/-- Claim C6: normalize returns the empty string for an absent or empty url;
otherwise it truncates the input at the first question mark and strips
trailing slashes; in particular the three sample urls all normalize to the
same string. -/
theorem c6_normalize_contract :
    normalize_url none = "" ∧
    normalize_url (some "") = "" ∧
    (∀ a b : String, (∀ c ∈ a.data, c ≠ '?') → a ++ "?" ++ b ≠ "" →
      normalize_url (some (a ++ "?" ++ b)) = String.mk (rstripSlashL a.data)) ∧
    normalize_url (some "https://site/p?x=1") = normalize_url (some "https://site/p/") ∧
    normalize_url (some "https://site/p/") = normalize_url (some "https://site/p") := by
  refine ⟨rfl, rfl, ?_, by decide, by decide⟩
  intro a b ha hne
  rw [normalize_url_some, if_neg hne]
  have hdata : (a ++ "?" ++ b).data = a.data ++ '?' :: b.data := by
    rw [String.data_append, String.data_append, List.append_assoc]
    congr 1
  unfold normCore
  rw [hdata, takeUntilQuery_append_query a.data b.data ha]

/-- Witness for C6 at concrete inputs: the truncation clause evaluated at
a = "https://site/p/", b = "x=1". -/
theorem c6_normalize_contract_witness :
    normalize_url (some ("https://site/p/" ++ "?" ++ "x=1")) =
      String.mk (rstripSlashL "https://site/p/".data) :=
  c6_normalize_contract.2.2.1 "https://site/p/" "x=1" (by decide) (by decide)

/-- Claim C7: normalization is idempotent: renormalizing the result of
`normalize_url` leaves it unchanged, for every input (absent included). -/
theorem c7_normalize_idem (u : Option String) :
    normalize_url (some (normalize_url u)) = normalize_url u := by
  match u with
  | none => rfl
  | some s =>
    rw [normalize_url_some s]
    by_cases hs : s = ""
    · simp [hs, normalize_url]
    · rw [if_neg hs, normalize_url_some]
      by_cases hz : String.mk (normCore s.data) = ""
      · rw [if_pos hz]; exact hz.symm
      · rw [if_neg hz, data_mk, normCore_idem]

/-- Counterexample to claim C5 as stated: with current location "?" and
target "?", the normalized forms agree (both are empty), yet
`_navigate_if_needed` does issue a navigation, because the source guards
the no-op with `if desired and desired == current` and an empty `desired`
is falsy in Python. -/
theorem c5_counterexample :
    navigate_if_needed "?" (some "?") = true ∧
    normalize_url (some "?") = normalize_url (some "?") ∧
    normalize_url (some "?") = "" := by
  refine ⟨by decide, rfl, by decide⟩

/-- Claim C5 (amended): `_navigate_if_needed` issues zero navigation actions
when the target is absent (None or the empty string), and when the
normalized target is NON-EMPTY and equals the normalized current location.
(The unamended claim omitted the non-emptiness condition.) -/
theorem c5_no_nav_when_same (current : String) :
    navigate_if_needed current none = false ∧
    navigate_if_needed current (some "") = false ∧
    (∀ t : String, t ≠ "" → normalize_url (some t) ≠ "" →
      normalize_url (some t) = normalize_url (some current) →
      navigate_if_needed current (some t) = false) := by
  refine ⟨rfl, rfl, ?_⟩
  intro t ht hne heq
  simp only [navigate_if_needed]
  rw [if_neg ht, if_pos ⟨hne, heq⟩]

/-- Witness for C5 (amended) at a concrete input: current and target both
normalize to "https://site/p", so no navigation is issued. -/
theorem c5_no_nav_when_same_witness :
    navigate_if_needed "https://site/p?a=2" (some "https://site/p/") = false :=
  (c5_no_nav_when_same "https://site/p?a=2").2.2 "https://site/p/"
    (by decide) (by decide) (by decide)

/-! ## Trade-record extraction (`KreamCrawler.scrape_trade_history`, row loop) -/

/-- One scraped trade row: the dict with keys size, price, date appended by
`scrape_trade_history` (the `date` field is the timestamp column). -/
structure TradeRecord where
  size : String
  price : String
  date : String
  deriving DecidableEq, Repr

/-- One row handle as observed by the extraction loop: either the list of
texts of its `div.list_txt span` cells, or a row whose processing raises
an exception (caught by the per-row `try/except`). -/
inductive RowRead where
  | ok (cells : List String)
  | raisesDuringExtraction
  deriving DecidableEq, Repr

/-- Python `str.strip()` on characters: drop leading and trailing
whitespace. -/
def stripL (l : List Char) : List Char :=
  ((l.dropWhile (fun c => c.isWhitespace)).reverse.dropWhile
    (fun c => c.isWhitespace)).reverse

/-- Python `str.strip()`. -/
def strip (s : String) : String :=
  String.mk (stripL s.data)

/-- The body of the per-row extraction in `scrape_trade_history`, given the
cell texts of one row: `if len(cells) < 3: continue`; read
`cells[0].text.strip()`, `cells[1].text.strip()`, `cells[2].text.strip()`;
`if not size and not price and not date: continue`; otherwise append the
record. -/
def extractRow (cells : List String) : Option TradeRecord :=
  match cells with
  | c0 :: c1 :: c2 :: _ =>
    if strip c0 = "" ∧ strip c1 = "" ∧ strip c2 = "" then none
    else some { size := strip c0, price := strip c1, date := strip c2 }
  | _ => none

/-- The whole extraction loop of `scrape_trade_history` over the row list:
rows whose processing raises are skipped by the bare `except: continue`;
rows yielding no record are skipped; the rest are appended in order. -/
def extractRows : List RowRead → List TradeRecord
  | [] => []
  | RowRead.raisesDuringExtraction :: rest => extractRows rest
  | RowRead.ok cells :: rest =>
    match extractRow cells with
    | some r => r :: extractRows rest
    | none => extractRows rest

/-- Counterexample to claim C2 as stated: the row with cell texts
["10", "128,000", ""] has only two non-empty trimmed cells, so by the claim
it should yield no record; the code only skips when ALL THREE of the first
three texts are empty, so it constructs a record whose timestamp field is
empty — contradicting both the skip rule and the all-fields-non-empty
invariant. -/
theorem c2_counterexample :
    (["10", "128,000", ""].filter (fun c => !(strip c == ""))).length = 2 ∧
    extractRow ["10", "128,000", ""] =
      some { size := "10", price := "128,000", date := "" } := by
  exact ⟨by decide, by decide⟩

/-- Claim C2 (amended): a row yields no record iff it has fewer than 3
cells or the first three trimmed texts are ALL empty; otherwise the first
three cell texts (trimmed, some possibly empty) become size, price,
timestamp in that order; consequently every constructed TradeRecord has at
least one non-empty field (not necessarily all three, and the cells are
not filtered for non-emptiness). -/
theorem c2_extract_contract (cells : List String) :
    (cells.length < 3 → extractRow cells = none) ∧
    (∀ c0 c1 c2 rest, cells = c0 :: c1 :: c2 :: rest →
      extractRow cells =
        if strip c0 = "" ∧ strip c1 = "" ∧ strip c2 = "" then none
        else some { size := strip c0, price := strip c1, date := strip c2 }) ∧
    (∀ r, extractRow cells = some r →
      ¬(r.size = "" ∧ r.price = "" ∧ r.date = "")) := by
  refine ⟨?_, ?_, ?_⟩
  · intro h
    match cells with
    | [] => rfl
    | [a] => rfl
    | [a, b] => rfl
    | a :: b :: c :: rest => simp [List.length] at h; omega
  · intro c0 c1 c2 rest h
    subst h
    rfl
  · intro r h hc
    match cells with
    | [] => simp [extractRow] at h
    | [a] => simp [extractRow] at h
    | [a, b] => simp [extractRow] at h
    | c0 :: c1 :: c2 :: rest =>
      by_cases he : strip c0 = "" ∧ strip c1 = "" ∧ strip c2 = ""
      · simp [extractRow, he] at h
      · have h2 : extractRow (c0 :: c1 :: c2 :: rest) =
            some { size := strip c0, price := strip c1, date := strip c2 } := by
          simp [extractRow, he]
        rw [h2] at h
        injection h with h
        subst h
        exact he ⟨hc.1, hc.2.1, hc.2.2⟩

/-- Witness for C2 (amended) at a concrete input: a two-cell row yields no
record. -/
theorem c2_extract_contract_witness : extractRow ["10", "128,000"] = none :=
  (c2_extract_contract ["10", "128,000"]).1 (by decide)

theorem extractRows_append (r1 r2 : List RowRead) :
    extractRows (r1 ++ r2) = extractRows r1 ++ extractRows r2 := by
  induction r1 with
  | nil => rfl
  | cons a t ih =>
    cases a with
    | raisesDuringExtraction => simp [extractRows, ih]
    | ok cells =>
      simp only [List.cons_append, extractRows]
      cases extractRow cells <;> simp [ih]

/-- Claim C9: an error raised while extracting any single row is caught and
that row is silently skipped; the collection never aborts and the records
extracted from all the other rows are still returned, in order. -/
theorem c9_row_error_skipped (r1 r2 : List RowRead) :
    extractRows (r1 ++ RowRead.raisesDuringExtraction :: r2) =
      extractRows r1 ++ extractRows r2 := by
  rw [extractRows_append]
  simp [extractRows]

/-! ## Pagination loop (PaginationScraper, spec section 4.5) -/

/-- Modelled from the spec: the PaginationScraper loop of spec section 4.5
is not present in src/crawler.py (its `scrape_trade_history` reads the rows
once, with no scrolling); only this repository variant is under src/.
Modelled faithfully from the spec wording: read the current row count; if
it equals the previous iteration count, terminate (fixed point); otherwise
remember the count, scroll to the bottom, settle, and repeat.  The input
list is the row count observed at each successive poll; the result is the
final count paired with the number of scroll actions issued, or `none`
when the observation sequence is exhausted before a fixed point (the loop
would still be running — it has no iteration cap). -/
def collectAll : Option Nat → List Nat → Option (Nat × Nat)
  | _, [] => none
  | some p, c :: rest =>
    if c = p then some (c, 0)
    else (collectAll (some c) rest).map (fun r => (r.1, r.2 + 1))
  | none, c :: rest => (collectAll (some c) rest).map (fun r => (r.1, r.2 + 1))

/-- Claim C1: the pagination loop terminates exactly when the current row
count equals the previous iteration count (with zero further scrolls), and
otherwise remembers the count, scrolls, and repeats; for the observed
row-count sequence [3, 5, 5] it terminates after the repeated 5 with final
count 5 (after 2 scrolls), and 5 is not 3. -/
theorem c1_pagination_fixed_point :
    (∀ (p c : Nat) (rest : List Nat), c = p →
      collectAll (some p) (c :: rest) = some (c, 0)) ∧
    (∀ (p c : Nat) (rest : List Nat), c ≠ p →
      collectAll (some p) (c :: rest) =
        (collectAll (some c) rest).map (fun r => (r.1, r.2 + 1))) ∧
    collectAll none [3, 5, 5] = some (5, 2) ∧ (5 : Nat) ≠ 3 := by
  refine ⟨?_, ?_, by decide, by decide⟩
  · intro p c rest h
    simp [collectAll, h]
  · intro p c rest h
    simp [collectAll, h]

/-- Witness for C1 at concrete inputs: with previous count 5 and current
count 5 the loop stops at once. -/
theorem c1_pagination_fixed_point_witness :
    collectAll (some 5) [5, 7] = some (5, 0) :=
  c1_pagination_fixed_point.1 5 5 [7] rfl

/-! ## Login flow and top-level pipeline
(`KreamCrawler.login_kream`, `open_product_and_modal`,
`_click_details_button`, `crawl_product`)

The selenium driver is external mutable state; each read the code performs
(a `current_url` access, the outcome of a wait, the value of a field after
filling) is one field of `Browser` below, and each effectful call becomes
an `Action` in an explicit trace.  Python exceptions become `Except`:
`RuntimeError("Email or password is empty.")` is `configurationError`,
the `RuntimeError` raised by `_click_details_button` is
`requiredElementNotFound`, an uncaught selenium `TimeoutException` is
`timeoutError`, an uncaught `NoSuchElementException` is `noSuchElement`,
and any other uncaught driver exception is `webDriverError`. -/

inductive PyError where
  | configurationError
  | requiredElementNotFound
  | timeoutError
  | noSuchElement
  | webDriverError
  deriving DecidableEq, Repr

inductive Action where
  | clickLoginLink
  | forceNavigateLogin
  | fillForm
  | refillForm
  | submitEnter
  | navGet (url : String)
  | clickDetails
  deriving DecidableEq, Repr

/-- The observations `crawler.py` makes of external browser state, one
field per read site, in program order. -/
structure Browser where
  /-- step 1 of login: the try-block around the top login link runs to the
  click without raising (find, scrollIntoView, click all succeed). -/
  loginLinkWorks : Bool
  /-- `driver.current_url` at the check before force-navigating to /login. -/
  urlAfterLinkClick : String
  /-- the wait for the email input resolves within the timeout. -/
  emailInputFound : Bool
  /-- `find_element` for the password input succeeds. -/
  passwordInputFound : Bool
  /-- value attribute of the email input re-read after filling. -/
  emailValueAfterFill : String
  /-- value attribute of the password input re-read after filling. -/
  pwValueAfterFill : String
  /-- the re-find of both inputs in the refill branch succeeds. -/
  refindInputsFound : Bool
  /-- the wait for leaving /login resolves within the timeout. -/
  waitLeavesLogin : Bool
  /-- `driver.current_url` re-read in the timeout branch of the login wait. -/
  urlAfterLoginWait : String
  /-- `driver.current_url` inside the post-login `_navigate_if_needed`. -/
  urlAtRedirectCheck : String
  /-- `driver.current_url` inside `_navigate_if_needed` of step 2 of
  `open_product_and_modal`. -/
  urlAtProductCheck : String
  /-- the wait for the details activation element resolves within timeout. -/
  detailsFound : Bool
  /-- the ActionChains click on the details control does not raise. -/
  actionChainsClickOk : Bool
  /-- the fallback JS click does not raise (only reached if the
  ActionChains click raised; if it raises too, the exception propagates). -/
  jsClickOk : Bool
  /-- the wait for the trade-history modal text resolves (soft: a timeout
  here is caught and only logged, with no further effect). -/
  modalConfirmed : Bool
  /-- the wait for `div.market_price_table` resolves within timeout. -/
  containerFound : Bool
  /-- the rows found under the container, as seen by the extraction loop. -/
  rows : List RowRead

/-- The actions `_navigate_if_needed` issues. -/
def navActions (current : String) (target : Option String) : List Action :=
  match target with
  | none => []
  | some t => if navigate_if_needed current (some t) then [Action.navGet t] else []

/-- Python `redirect_to or product_url` (first truthy operand). -/
def target_after_login (redirectTo : Option String) (productUrl : String) : String :=
  match redirectTo with
  | none => productUrl
  | some r => if r = "" then productUrl else r

structure LoginResult where
  /-- the local `logged_in` at the end of `login_kream`. -/
  loggedIn : Bool
  /-- whether the post-login `_navigate_if_needed` call was made. -/
  redirectInvoked : Bool
  deriving DecidableEq, Repr

/-- `KreamCrawler.login_kream(redirect_to)`: action trace plus outcome.
Mirrors the source: the empty-credential check raises before any driver
access; step 1 tries the top login link (exceptions caught); step 2
force-navigates to /login when the current url does not contain
"kream.co.kr/login"; step 3 waits for the email input (uncaught timeout)
and finds the password input (uncaught NoSuchElement); step 4 fills both,
re-reads the values and re-fills once when the email value changed or the
password value is empty (the re-find may raise, uncaught); step 5 submits
via ENTER; step 6 waits for the url to leave /login, and on timeout
re-reads `current_url` to decide `logged_in`; step 7 calls
`_navigate_if_needed` on `redirect_to or product_url` iff that target is
truthy and `logged_in` holds. -/
def login_kream (b : Browser) (email password : String)
    (redirectTo : Option String) (productUrl : String) :
    List Action × Except PyError LoginResult :=
  if email = "" ∨ password = "" then
    ([], Except.error PyError.configurationError)
  else
    let t1 : List Action := if b.loginLinkWorks then [Action.clickLoginLink] else []
    let t2 : List Action :=
      if containsStr b.urlAfterLinkClick "kream.co.kr/login" then []
      else [Action.forceNavigateLogin]
    if !b.emailInputFound then (t1 ++ t2, Except.error PyError.timeoutError)
    else if !b.passwordInputFound then (t1 ++ t2, Except.error PyError.noSuchElement)
    else
      let needRefill : Bool :=
        (b.emailValueAfterFill != email) || (b.pwValueAfterFill == "")
      if needRefill && !b.refindInputsFound then
        (t1 ++ t2 ++ [Action.fillForm], Except.error PyError.noSuchElement)
      else
        let t4 : List Action := if needRefill then [Action.refillForm] else []
        let logged_in : Bool :=
          if b.waitLeavesLogin then true
          else !(containsStr b.urlAfterLoginWait "kream.co.kr/login")
        let target := target_after_login redirectTo productUrl
        let doRedirect : Bool := (target != "") && logged_in
        let t6 : List Action :=
          if doRedirect then navActions b.urlAtRedirectCheck (some target) else []
        (t1 ++ t2 ++ [Action.fillForm] ++ t4 ++ [Action.submitEnter] ++ t6,
         Except.ok { loggedIn := logged_in, redirectInvoked := doRedirect })

/-- `KreamCrawler.open_product_and_modal`: login with
`redirect_to = product_url`, safety re-navigation to the product page,
then `_click_details_button`; the final modal-confirmation wait is soft
(caught, logged) and has no further effect. `_click_details_button` raises
`requiredElementNotFound` when the details element is not found within the
timeout; otherwise it clicks via ActionChains, falling back to a JS click
whose exception, if any, propagates. -/
def open_product_and_modal (b : Browser) (email password productUrl : String) :
    List Action × Except PyError Unit :=
  match login_kream b email password (some productUrl) productUrl with
  | (t, Except.error e) => (t, Except.error e)
  | (t, Except.ok _) =>
    let t2 := navActions b.urlAtProductCheck (some productUrl)
    if !b.detailsFound then
      (t ++ t2, Except.error PyError.requiredElementNotFound)
    else if !b.actionChainsClickOk && !b.jsClickOk then
      (t ++ t2, Except.error PyError.webDriverError)
    else
      (t ++ t2 ++ [Action.clickDetails], Except.ok ())

/-- `KreamCrawler.scrape_trade_history`: the wait for the row container
raises an uncaught TimeoutException when it is absent; otherwise the rows
are extracted by the per-row loop. -/
def scrape_trade_history (b : Browser) : Except PyError (List TradeRecord) :=
  if !b.containerFound then Except.error PyError.timeoutError
  else Except.ok (extractRows b.rows)

/-- `KreamCrawler.save_to_excel`: `some (filename, records)` when a file is
written, `none` when the record list is empty (warning only). -/
def save_to_excel (records : List TradeRecord) (filename : String) :
    Option (String × List TradeRecord) :=
  if records.isEmpty then none else some (filename, records)

/-- `crawl_product`: the whole pipeline; any exception from an earlier
step propagates (the `finally` block only quits the driver) and the later
steps, the export included, never run. -/
def crawl_product (b : Browser) (productUrl outputFile email password : String) :
    List Action × Except PyError (Option (String × List TradeRecord)) :=
  match open_product_and_modal b email password productUrl with
  | (t, Except.error e) => (t, Except.error e)
  | (t, Except.ok _) =>
    match scrape_trade_history b with
    | Except.error e => (t, Except.error e)
    | Except.ok records => (t, Except.ok (save_to_excel records outputFile))

/-- A concrete browser on which the whole pipeline succeeds; used to
instantiate hypotheses at witnesses. -/
def sampleBrowser : Browser where
  loginLinkWorks := true
  urlAfterLinkClick := "https://kream.co.kr/products/83900"
  emailInputFound := true
  passwordInputFound := true
  emailValueAfterFill := "user@mail.com"
  pwValueAfterFill := "pw"
  refindInputsFound := true
  waitLeavesLogin := true
  urlAfterLoginWait := "https://kream.co.kr/"
  urlAtRedirectCheck := "https://kream.co.kr/"
  urlAtProductCheck := "https://kream.co.kr/products/83900"
  detailsFound := true
  actionChainsClickOk := true
  jsClickOk := true
  modalConfirmed := true
  containerFound := true
  rows := [RowRead.ok ["10", "128,000", "2024-03-01"]]

/-- The counterexample browser for the login terminal check: the wait for
leaving /login times out, but the re-read of the url already shows a
non-login page. -/
def cex4Browser : Browser :=
  { sampleBrowser with
    waitLeavesLogin := false
    urlAfterLoginWait := "https://kream.co.kr/" }

/-- Claim C8: with an empty email or password, `login_kream` fails fatally
with the ConfigurationError-class RuntimeError, raised synchronously
before any browser interaction (the action trace is empty), and the error
propagates unchanged through `crawl_product` to the caller. -/
theorem c8_missing_credentials (b : Browser) (email password : String)
    (redirectTo : Option String) (productUrl outputFile : String)
    (h : email = "" ∨ password = "") :
    login_kream b email password redirectTo productUrl =
      ([], Except.error PyError.configurationError) ∧
    crawl_product b productUrl outputFile email password =
      ([], Except.error PyError.configurationError) := by
  have hl : ∀ rt : Option String, login_kream b email password rt productUrl =
      ([], Except.error PyError.configurationError) := by
    intro rt
    unfold login_kream
    rw [if_pos h]
  refine ⟨hl redirectTo, ?_⟩
  unfold crawl_product open_product_and_modal
  rw [hl (some productUrl)]

/-- Witness for C8 at a concrete input: empty email, concrete password. -/
theorem c8_missing_credentials_witness :
    login_kream sampleBrowser "" "pw" none "https://kream.co.kr/products/83900" =
      ([], Except.error PyError.configurationError) ∧
    crawl_product sampleBrowser "https://kream.co.kr/products/83900"
      "kream_83900.xlsx" "" "pw" =
      ([], Except.error PyError.configurationError) :=
  c8_missing_credentials sampleBrowser "" "pw" none
    "https://kream.co.kr/products/83900" "kream_83900.xlsx" (Or.inl rfl)

/-- Claim C3: when the details activation element is not found within the
timeout, the whole run aborts with the RequiredElementNotFound-class error
and no export occurs: `crawl_product` propagates the error and never
reaches `save_to_excel`. -/
theorem c3_details_not_found (b : Browser)
    (email password productUrl outputFile : String)
    (he : email ≠ "") (hp : password ≠ "")
    (hei : b.emailInputFound = true) (hpi : b.passwordInputFound = true)
    (hr : b.refindInputsFound = true) (hd : b.detailsFound = false) :
    (crawl_product b productUrl outputFile email password).2 =
      Except.error PyError.requiredElementNotFound ∧
    ∀ exp : Option (String × List TradeRecord),
      (crawl_product b productUrl outputFile email password).2 ≠
        Except.ok exp := by
  have hne : ¬(email = "" ∨ password = "") := by
    rintro (h | h)
    · exact he h
    · exact hp h
  have hlogin : ∃ t res,
      login_kream b email password (some productUrl) productUrl =
        (t, Except.ok res) := by
    unfold login_kream
    rw [if_neg hne]
    simp [hei, hpi, hr]
  obtain ⟨t, res, hlogin⟩ := hlogin
  have hopen : open_product_and_modal b email password productUrl =
      (t ++ navActions b.urlAtProductCheck (some productUrl),
        Except.error PyError.requiredElementNotFound) := by
    unfold open_product_and_modal
    rw [hlogin]
    simp [hd]
  have hcrawl : (crawl_product b productUrl outputFile email password).2 =
      Except.error PyError.requiredElementNotFound := by
    unfold crawl_product
    rw [hopen]
  refine ⟨hcrawl, ?_⟩
  intro exp hc
  rw [hcrawl] at hc
  exact Except.noConfusion hc

/-- Witness for C3 at a concrete input: the sample browser with the
details element absent. -/
theorem c3_details_not_found_witness :
    (crawl_product { sampleBrowser with detailsFound := false }
      "https://kream.co.kr/products/83900" "kream_83900.xlsx"
      "user@mail.com" "pw").2 =
      Except.error PyError.requiredElementNotFound :=
  (c3_details_not_found { sampleBrowser with detailsFound := false }
    "user@mail.com" "pw" "https://kream.co.kr/products/83900"
    "kream_83900.xlsx" (by decide) (by decide) rfl rfl rfl rfl).1

/-- Counterexample to claim C4 as stated: on `cex4Browser` the wait for
leaving /login times out, yet the flow does NOT end in the StillOnLogin
state — the code re-reads `current_url` in the timeout branch, and since
that read shows a non-login page, `logged_in` becomes true and the flow
ends Authenticated (and even issues the post-login redirect). -/
theorem c4_counterexample :
    cex4Browser.waitLeavesLogin = false ∧
    (login_kream cex4Browser "user@mail.com" "pw" none
      "https://kream.co.kr/products/83900").2 =
      Except.ok { loggedIn := true, redirectInvoked := true } := by
  exact ⟨rfl, by rfl⟩

/-- Claim C4 (amended): in the terminal check, if the location leaves the
login page before the timeout the flow ends Authenticated; if the timeout
elapses, a final re-read of the location decides: StillOnLogin only when
it still shows the login page, Authenticated otherwise.  Both outcomes are
soft: the function returns normally (an `Except.ok`), no exception is
raised. -/
theorem c4_terminal_check (b : Browser) (email password productUrl : String)
    (he : email ≠ "") (hp : password ≠ "")
    (hei : b.emailInputFound = true) (hpi : b.passwordInputFound = true)
    (hr : b.refindInputsFound = true) :
    (login_kream b email password none productUrl).2 =
      Except.ok
        { loggedIn :=
            if b.waitLeavesLogin then true
            else !(containsStr b.urlAfterLoginWait "kream.co.kr/login"),
          redirectInvoked :=
            (productUrl != "") &&
              (if b.waitLeavesLogin then true
               else !(containsStr b.urlAfterLoginWait "kream.co.kr/login")) } := by
  have hne : ¬(email = "" ∨ password = "") := by
    rintro (h | h)
    · exact he h
    · exact hp h
  unfold login_kream
  rw [if_neg hne]
  simp [hei, hpi, hr, target_after_login]

/-- Witness for C4 (amended) at a concrete input: the sample browser,
whose login wait succeeds. -/
theorem c4_terminal_check_witness :
    (login_kream sampleBrowser "user@mail.com" "pw" none
      "https://kream.co.kr/products/83900").2 =
      Except.ok
        { loggedIn :=
            if sampleBrowser.waitLeavesLogin then true
            else !(containsStr sampleBrowser.urlAfterLoginWait "kream.co.kr/login"),
          redirectInvoked :=
            ("https://kream.co.kr/products/83900" != "") &&
              (if sampleBrowser.waitLeavesLogin then true
               else !(containsStr sampleBrowser.urlAfterLoginWait
                 "kream.co.kr/login")) } :=
  c4_terminal_check sampleBrowser "user@mail.com" "pw"
    "https://kream.co.kr/products/83900" (by decide) (by decide) rfl rfl rfl

/-- Claim C10: the terminal authentication decision is made from the last
location observation — on timeout the code reads `current_url` once more
and decides from that read; the post-login `_navigate_if_needed` call is
made iff that decision is positive and the target (`redirect_to or
product_url`) is non-empty; and when the decision is negative no redirect
navigation (`driver.get` of `_navigate_if_needed`) is issued at all. -/
theorem c10_redirect_decision (b : Browser) (email password : String)
    (redirectTo : Option String) (productUrl : String)
    (he : email ≠ "") (hp : password ≠ "")
    (hei : b.emailInputFound = true) (hpi : b.passwordInputFound = true)
    (hr : b.refindInputsFound = true) :
    ∀ res, (login_kream b email password redirectTo productUrl).2 =
        Except.ok res →
      (b.waitLeavesLogin = false →
        res.loggedIn = !(containsStr b.urlAfterLoginWait "kream.co.kr/login")) ∧
      (res.redirectInvoked = true ↔
        (res.loggedIn = true ∧
          target_after_login redirectTo productUrl ≠ "")) ∧
      (res.loggedIn = false →
        res.redirectInvoked = false ∧
        ∀ u, Action.navGet u ∉
          (login_kream b email password redirectTo productUrl).1) := by
  have hne : ¬(email = "" ∨ password = "") := by
    rintro (h | h)
    · exact he h
    · exact hp h
  have hmain : login_kream b email password redirectTo productUrl =
      ((if b.loginLinkWorks then [Action.clickLoginLink] else []) ++
        (if containsStr b.urlAfterLinkClick "kream.co.kr/login" then []
         else [Action.forceNavigateLogin]) ++
        [Action.fillForm] ++
        (if (b.emailValueAfterFill != email) || (b.pwValueAfterFill == "")
         then [Action.refillForm] else []) ++
        [Action.submitEnter] ++
        (if (target_after_login redirectTo productUrl != "") &&
            (if b.waitLeavesLogin then true
             else !(containsStr b.urlAfterLoginWait "kream.co.kr/login"))
         then navActions b.urlAtRedirectCheck
            (some (target_after_login redirectTo productUrl))
         else []),
       Except.ok
        { loggedIn :=
            if b.waitLeavesLogin then true
            else !(containsStr b.urlAfterLoginWait "kream.co.kr/login"),
          redirectInvoked :=
            (target_after_login redirectTo productUrl != "") &&
              (if b.waitLeavesLogin then true
               else !(containsStr b.urlAfterLoginWait "kream.co.kr/login")) }) := by
    unfold login_kream
    rw [if_neg hne]
    simp [hei, hpi, hr]
  intro res hres
  rw [hmain] at hres
  injection hres with hres
  subst hres
  refine ⟨?_, ?_, ?_⟩
  · intro hw
    simp [hw]
  · simp only [Bool.and_eq_true, bne_iff_ne, ne_eq]
    constructor
    · rintro ⟨h1, h2⟩
      exact ⟨h2, h1⟩
    · rintro ⟨h1, h2⟩
      exact ⟨h2, h1⟩
  · intro hli
    simp only at hli
    constructor
    · simp [hli]
    · intro u
      rw [hmain]
      simp only [hli, Bool.and_false, if_false]
      simp [List.mem_append]

/-- Witness for C10 at a concrete input: the sample browser with concrete
credentials; the redirect is invoked since the login wait succeeds and the
product url is non-empty. -/
theorem c10_redirect_decision_witness :
    (({ loggedIn := true, redirectInvoked := true } : LoginResult).redirectInvoked
        = true ↔
      (({ loggedIn := true, redirectInvoked := true } : LoginResult).loggedIn
          = true ∧
        target_after_login none "https://kream.co.kr/products/83900" ≠ "")) :=
  ((c10_redirect_decision sampleBrowser "user@mail.com" "pw" none
      "https://kream.co.kr/products/83900" (by decide) (by decide) rfl rfl rfl
      { loggedIn := true, redirectInvoked := true } (by rfl)).2).1

end Kream
